import Mathlib

/-!
# CRConfig snapshot handlers

A shallow embedding of `traffic_ops/traffic_ops_golang/crconfig/handler.go`.

Each HTTP handler of the source is a Lean function in the monad `HandlerM`,
which threads the observable effects of one request: the chronological trace
of calls made to collaborators and to the response writer, and the value of
the transaction commit flag `*inf.CommitTx`.  A Go runtime panic (calling
`Error()` on a nil `error`) stops the handler; deferred calls still run.

The collaborators that live outside this file of the source (`api.NewInfo`,
`Make`, `Snapshot`, `GetSnapshot`, `getCDNNameFromID`, `url.PathEscape`, and
the constants of package `tc` and `api`) are parameters, gathered in
`Collaborators`; every theorem quantifies over all of them.

Go strings are Lean strings, with `+` as `++`; the conversion `[]byte(s)` is
the list of the UTF-8 bytes of `s`.
-/

namespace crconfig

/-! ## Go values -/

/-- A Go `error` interface value: `none` is `nil`, `some m` is a non-nil error
whose `Error()` method returns `m`. -/
abbrev GoError := Option String

/-- The Go function `errors.New`. -/
def errorsNew (msg : String) : GoError := some msg

/-- A Go `map[string]T`, as a lookup function (`none`: key absent). -/
abbrev GoMap (T : Type) := String → Option T

/-- The one-result index expression `m[k]` on a `map[string]string`: the zero
value `""` when the key is absent. -/
def GoMap.index (m : GoMap String) (k : String) : String := (m k).getD ""

/-- The conversion `[]byte(s)`: the bytes of a string, UTF-8 encoded. -/
def goBytes (s : String) : List UInt8 := s.toUTF8.data.toList

/-- The constant `http.StatusOK`. -/
def StatusOK : Nat := 200
/-- The constant `http.StatusFound`. -/
def StatusFound : Nat := 302
/-- The constant `http.StatusNotFound`. -/
def StatusNotFound : Nat := 404
/-- The constant `http.StatusInternalServerError`. -/
def StatusInternalServerError : Nat := 500

/-! ## Data model -/

/-- The configuration document `*tc.CRConfig` returned by `Make`.  The handlers
never inspect it; it is kept as the name of the CDN it describes and its JSON
serialisation. -/
structure CRConfig where
  CDNName : String
  JSON : String
deriving DecidableEq, Repr

/-- The part of `*auth.CurrentUser` the handlers read. -/
structure CurrentUser where
  UserName : String
deriving DecidableEq, Repr

/-- The request `*http.Request`: the fields the handlers read, `r.Host`,
`r.URL.Path` and `r.RemoteAddr`, and the path and query parameters `Form`,
which only `api.NewInfo` reads. -/
structure Request where
  Host : String
  URLPath : String
  RemoteAddr : String
  Form : GoMap String

/-- The part of `*api.APIInfo` the handlers read: `inf.Params`,
`inf.IntParams`, `inf.User` and `inf.Config.Version`.  The transaction
`inf.Tx.Tx` is ambient: the collaborators below are closures over it. -/
structure APIInfo where
  Params : GoMap String
  IntParams : GoMap Int
  User : CurrentUser
  ConfigVersion : String

/-- The four results of `api.NewInfo`.  `inf` is only read by a handler when
both errors are nil. -/
structure NewInfoResult where
  inf : APIInfo
  userErr : GoError
  sysErr : GoError
  errCode : Nat

/-- The functions and constants the handlers use that are defined outside
`handler.go`.  Each function gives the results of the call for its arguments
within the transaction of the request.  `CreateChangeLogRawTx` gives the
outcome of writing the change-log entry (`none`: written); the handlers call
it as a statement, so this outcome never reaches them. -/
structure Collaborators where
  NewInfo : Request → List String → List String → NewInfoResult
  Make : String → String → String → String → String → CRConfig × GoError
  Snapshot : CRConfig → GoError
  GetSnapshot : String → String × Bool × GoError
  getCDNNameFromID : Int → String × Bool × GoError
  CreateChangeLogRawTx : String → String → CurrentUser → GoError
  PathEscape : String → String
  ContentType : String
  ApplicationJson : String
  ApiChange : String

/-! ## Effects -/

/-- One observable action of a handler: a call to a collaborator, to the
logger, to the response writer or to the helper `writePerlHTMLErr`, with the
arguments of the call. -/
inductive Event where
  | NewInfo (reqParams intParams : List String)
  | HandleErr (code : Nat) (userErr sysErr : GoError)
  | WriteResp (v : CRConfig)
  | HeaderSet (key value : String)
  | Write (body : List UInt8)
  | WriteHeader (code : Nat)
  | Redirect (url : String) (code : Nat)
  | writePerlHTMLErr (err : GoError)
  | Errorln (msg : String)
  | Infof (format : String)
  | Make (cdn user host path version : String)
  | Snapshot (crc : CRConfig)
  | GetSnapshot (cdn : String)
  | getCDNNameFromID (id : Int)
  | CreateChangeLogRawTx (level msg : String) (user : CurrentUser)
  | Close
deriving DecidableEq, Repr

/-- The state a handler threads: the trace so far and `*inf.CommitTx`. -/
structure HState where
  events : List Event
  commit : Bool
deriving DecidableEq, Repr

/-- A handler computation: from a state to a result and a new state; the
result `none` is a Go runtime panic. -/
def HandlerM (α : Type) : Type := HState → Option α × HState

instance : Monad HandlerM where
  pure a := fun s => (some a, s)
  bind m f := fun s =>
    match m s with
    | (some a, s1) => f a s1
    | (none, s1) => (none, s1)

/-- Record one event at the end of the trace. -/
def emit (e : Event) : HandlerM Unit :=
  fun s => (some (), { s with events := s.events ++ [e] })

/-- The assignment `*inf.CommitTx = b`. -/
def setCommitTx (b : Bool) : HandlerM Unit :=
  fun s => (some (), { s with commit := b })

/-- The method call `err.Error()`: a nil-pointer panic on a nil error. -/
def GoError.Error (err : GoError) : HandlerM String :=
  fun s =>
    match err with
    | some m => (some m, s)
    | none => (none, s)

/-- The statement `defer d` followed by `body`: `d` runs when `body` returns
and also when it panics. -/
def deferring {α : Type} (d : HandlerM Unit) (body : HandlerM α) : HandlerM α :=
  fun s =>
    match body s with
    | (res, s1) => (res, (d s1).2)

/-- What one run of a handler leaves behind. -/
structure Outcome where
  events : List Event
  commit : Bool
  panicked : Bool
deriving DecidableEq, Repr

/-- Run a handler on a fresh request: empty trace, commit flag unset. -/
def HandlerM.run (h : HandlerM Unit) : Outcome :=
  match h { events := [], commit := false } with
  | (res, s) => { events := s.events, commit := s.commit, panicked := res.isNone }

/-! ## Calls to collaborators -/

/-- The call `api.NewInfo(r, reqParams, intParams)`. -/
def callNewInfo (env : Collaborators) (r : Request) (reqParams intParams : List String) :
    HandlerM NewInfoResult := do
  emit (.NewInfo reqParams intParams)
  pure (env.NewInfo r reqParams intParams)

/-- The call `Make(inf.Tx.Tx, cdn, user, host, path, version)`. -/
def callMake (env : Collaborators) (cdn user host path version : String) :
    HandlerM (CRConfig × GoError) := do
  emit (.Make cdn user host path version)
  pure (env.Make cdn user host path version)

/-- The call `Snapshot(inf.Tx.Tx, crc)`. -/
def callSnapshot (env : Collaborators) (crc : CRConfig) : HandlerM GoError := do
  emit (.Snapshot crc)
  pure (env.Snapshot crc)

/-- The call `GetSnapshot(inf.Tx.Tx, cdn)`. -/
def callGetSnapshot (env : Collaborators) (cdn : String) :
    HandlerM (String × Bool × GoError) := do
  emit (.GetSnapshot cdn)
  pure (env.GetSnapshot cdn)

/-- The call `getCDNNameFromID(id, inf.Tx.Tx)`. -/
def callGetCDNNameFromID (env : Collaborators) (id : Int) :
    HandlerM (String × Bool × GoError) := do
  emit (.getCDNNameFromID id)
  pure (env.getCDNNameFromID id)

/-- The statement `api.CreateChangeLogRawTx(level, msg, user, inf.Tx.Tx)`; no
result is bound. -/
def callCreateChangeLogRawTx (env : Collaborators) (level msg : String) (user : CurrentUser) :
    HandlerM Unit := do
  emit (.CreateChangeLogRawTx level msg user)
  let _ := env.CreateChangeLogRawTx level msg user
  pure ()

/-! ## The handlers of `handler.go` -/

/-- The helper `writePerlHTMLErr`. -/
def writePerlHTMLErr (env : Collaborators) (err : GoError) : HandlerM Unit := do
  emit (.writePerlHTMLErr err)
  let msg ← err.Error
  emit (.Redirect ("/tools/flash_and_close/" ++ env.PathEscape ("Error: " ++ msg)) StatusFound)

/-- The handler `Handler`: builds and serves the CRConfig from the live data. -/
def Handler (env : Collaborators) (r : Request) : HandlerM Unit := do
  let res ← callNewInfo env r ["cdn"] []
  if res.userErr != none || res.sysErr != none then
    emit (.HandleErr res.errCode res.userErr res.sysErr)
    return
  let inf := res.inf
  deferring (emit .Close) do
    let (crConfig, err) ← callMake env (inf.Params.index "cdn") inf.User.UserName r.Host
      r.URLPath inf.ConfigVersion
    if err != none then
      emit (.HandleErr StatusInternalServerError none err)
      return
    emit (.Infof "CRConfig time to generate: %+v\n")
    setCommitTx true
    emit (.WriteResp crConfig)

/-- The handler `SnapshotGetHandler`: serves the stored snapshot inside a
`response` envelope. -/
def SnapshotGetHandler (env : Collaborators) (r : Request) : HandlerM Unit := do
  let res ← callNewInfo env r ["cdn"] []
  if res.userErr != none || res.sysErr != none then
    emit (.HandleErr res.errCode res.userErr res.sysErr)
    return
  let inf := res.inf
  deferring (emit .Close) do
    let (snapshot, cdnExists, err) ← callGetSnapshot env (inf.Params.index "cdn")
    if err != none then
      emit (.HandleErr StatusInternalServerError none
        (errorsNew ("getting snapshot: " ++ (← err.Error))))
      return
    if !cdnExists then
      emit (.HandleErr StatusNotFound (errorsNew "CDN not found") none)
      return
    setCommitTx true
    emit (.HeaderSet env.ContentType env.ApplicationJson)
    emit (.Write (goBytes ("\x7b\"response\":" ++ snapshot ++ "\x7d")))

/-- The handler `SnapshotOldGetHandler`: serves the stored snapshot bare. -/
def SnapshotOldGetHandler (env : Collaborators) (r : Request) : HandlerM Unit := do
  let res ← callNewInfo env r ["cdn"] []
  if res.userErr != none || res.sysErr != none then
    emit (.HandleErr res.errCode res.userErr res.sysErr)
    return
  let inf := res.inf
  deferring (emit .Close) do
    let (snapshot, cdnExists, err) ← callGetSnapshot env (inf.Params.index "cdn")
    if err != none then
      emit (.HandleErr StatusInternalServerError none
        (errorsNew ("getting snapshot: " ++ (← err.Error))))
      return
    if !cdnExists then
      emit (.HandleErr StatusNotFound (errorsNew "CDN not found") none)
      return
    setCommitTx true
    emit (.HeaderSet env.ContentType env.ApplicationJson)
    emit (.Write (goBytes snapshot))

/-- The first part of `SnapshotHandler` after `NewInfo`: the CDN name, from the
`cdn` parameter or else from the `id` parameter; `none` when the handler has
answered with an error and returns. -/
def resolveCDN (env : Collaborators) (inf : APIInfo) : HandlerM (Option String) := do
  match inf.Params "cdn" with
  | some cdn => return some cdn
  | none =>
    match inf.IntParams "id" with
    | none =>
      emit (.HandleErr StatusNotFound (errorsNew "params missing CDN") none)
      return none
    | some id =>
      let (name, ok, err) ← callGetCDNNameFromID env id
      if err != none then
        emit (.HandleErr StatusInternalServerError none
          (errorsNew ("Error getting CDN name from ID: " ++ (← err.Error))))
        return none
      if !ok then
        emit (.HandleErr StatusNotFound (errorsNew "No CDN found with that ID") none)
        return none
      return some name

/-- The handler `SnapshotHandler`: builds the CRConfig and writes it to the
snapshot table. -/
def SnapshotHandler (env : Collaborators) (r : Request) : HandlerM Unit := do
  let res ← callNewInfo env r [] ["id"]
  if res.userErr != none || res.sysErr != none then
    emit (.HandleErr res.errCode res.userErr res.sysErr)
    return
  let inf := res.inf
  deferring (emit .Close) do
    let some cdn ← resolveCDN env inf | return
    let (crConfig, err) ← callMake env cdn inf.User.UserName r.Host r.URLPath inf.ConfigVersion
    if err != none then
      emit (.HandleErr StatusInternalServerError none err)
      return
    let err ← callSnapshot env crConfig
    if err != none then
      emit (.HandleErr StatusInternalServerError none
        (errorsNew (r.RemoteAddr ++ " snaphsotting CRConfig: " ++ (← err.Error))))
      return
    callCreateChangeLogRawTx env env.ApiChange ("Snapshot of CRConfig performed for " ++ cdn)
      inf.User
    setCommitTx true
    emit (.WriteHeader StatusOK)

/-- The handler `SnapshotOldGUIHandler`: as `SnapshotHandler`, answering with
the redirects of the old Perl UI. -/
def SnapshotOldGUIHandler (env : Collaborators) (r : Request) : HandlerM Unit := do
  let res ← callNewInfo env r ["cdn"] []
  if res.userErr != none || res.sysErr != none then
    emit (.Errorln (r.RemoteAddr ++ " unable to get info from request: " ++ (← res.sysErr.Error)))
    writePerlHTMLErr env res.userErr
    return
  let inf := res.inf
  deferring (emit .Close) do
    let (crConfig, err) ← callMake env (inf.Params.index "cdn") inf.User.UserName r.Host
      r.URLPath inf.ConfigVersion
    if err != none then
      emit (.Errorln (r.RemoteAddr ++ " making CRConfig: " ++ (← err.Error)))
      writePerlHTMLErr env err
      return
    let err ← callSnapshot env crConfig
    if err != none then
      emit (.Errorln (r.RemoteAddr ++ " making CRConfig: " ++ (← err.Error)))
      writePerlHTMLErr env err
      return
    callCreateChangeLogRawTx env env.ApiChange
      ("Snapshot of CRConfig performed for " ++ inf.Params.index "cdn") inf.User
    setCommitTx true
    emit (.Redirect ("/tools/flash_and_close/" ++
      env.PathEscape "Successfully wrote the CRConfig.json!") StatusFound)

/-! ## Observations on an outcome -/

/-- The events that answer the request with an error: a call to
`api.HandleErr` or to `writePerlHTMLErr`. -/
def Event.isErrorResponse : Event → Bool
  | .HandleErr _ _ _ => true
  | .writePerlHTMLErr _ => true
  | _ => false

/-- Whether the trace holds an error response. -/
def Outcome.tookErrorPath (o : Outcome) : Bool := o.events.any Event.isErrorResponse

/-- The status code an event gives the response, for the events that write to
the response.  `api.HandleErr` answers with the code it is given,
`http.Redirect` and `WriteHeader` likewise; `api.WriteResp` and a `Write`
without a header written before answer 200. -/
def Event.status? : Event → Option Nat
  | .HandleErr code _ _ => some code
  | .WriteResp _ => some StatusOK
  | .Write _ => some StatusOK
  | .WriteHeader code => some code
  | .Redirect _ code => some code
  | _ => none

/-- The status code of the response: the one of the first event that writes
to the response; `none` when nothing was written. -/
def Outcome.responseStatus (o : Outcome) : Option Nat := o.events.findSome? Event.status?

/-- The bodies passed to `w.Write`, in order. -/
def Outcome.written (o : Outcome) : List (List UInt8) :=
  o.events.filterMap fun e => match e with
    | .Write b => some b
    | _ => none

/-- The documents passed to `Snapshot`, in order. -/
def Outcome.snapshotCalls (o : Outcome) : List CRConfig :=
  o.events.filterMap fun e => match e with
    | .Snapshot crc => some crc
    | _ => none

/-- The CDN names passed to `Make`, in order. -/
def Outcome.makeCalls (o : Outcome) : List String :=
  o.events.filterMap fun e => match e with
    | .Make cdn _ _ _ _ => some cdn
    | _ => none

/-- The messages passed to `api.CreateChangeLogRawTx`, in order. -/
def Outcome.changeLogs (o : Outcome) : List String :=
  o.events.filterMap fun e => match e with
    | .CreateChangeLogRawTx _ msg _ => some msg
    | _ => none

/-- The locations and codes passed to `http.Redirect`, in order. -/
def Outcome.redirects (o : Outcome) : List (String × Nat) :=
  o.events.filterMap fun e => match e with
    | .Redirect url code => some (url, code)
    | _ => none

/-- The build, persist and audit calls of a trace (`Make`, `Snapshot`,
`api.CreateChangeLogRawTx`) with their arguments, in order. -/
def Outcome.lifecycleCalls (o : Outcome) : List Event :=
  o.events.filter fun e => match e with
    | .Make _ _ _ _ _ => true
    | .Snapshot _ => true
    | .CreateChangeLogRawTx _ _ _ => true
    | _ => false

/-- The body of `SnapshotGetHandler` with its envelope taken off: the bytes
after the leading `{"response":` and before the final `}`. -/
def stripEnvelope (body : List UInt8) : List UInt8 :=
  (body.drop (goBytes "\x7b\"response\":").length).dropLast

/-! ## The snapshot store -/

/-- Modelled from the spec: the Snapshot Store, which holds at most one
current snapshot per CDN: the stored JSON by CDN name. -/
structure Store where
  current : String → Option String

/-- Modelled from the spec: `GetSnapshot` on the store, with its outcomes
success-with-data and success-but-CDN-unknown. -/
def Store.GetSnapshot (st : Store) (cdn : String) : String × Bool × GoError :=
  match st.current cdn with
  | some doc => (doc, true, none)
  | none => ("", false, none)

/-- Modelled from the spec: `Snapshot` (putSnapshot) on the store: the
snapshot of the CDN of the document is replaced wholesale. -/
def Store.put (st : Store) (crc : CRConfig) : Store :=
  { current := fun cdn => if cdn = crc.CDNName then some crc.JSON else st.current cdn }

/-- Modelled from the spec: the write one event makes to the store.  Only a
call of `Snapshot` writes to it; `Make` does not mutate persisted state. -/
def Store.apply (st : Store) : Event → Store
  | .Snapshot crc => st.put crc
  | _ => st

/-- Modelled from the spec: the store after a request.  The writes of the
request are kept when its transaction is marked committable and rolled back
otherwise. -/
def Store.after (st : Store) (o : Outcome) : Store :=
  if o.commit then o.events.foldl Store.apply st else st

/-- A sequence of calls of `Handler`, one per request of the list, each with
the collaborators as they are over the store at that time. -/
def previewCalls (envAt : Store → Collaborators) : List Request → Store → Store
  | [], st => st
  | r :: rs, st => previewCalls envAt rs (st.after (Handler (envAt st) r).run)

/-! ## Sample collaborators

Concrete inputs on which the theorems below are instantiated. -/

/-- A sample `api.NewInfo`: a required parameter missing from the request is
a user error; the integer parameter `id` is read when it is `42` or `999`. -/
def sampleNewInfo (r : Request) (reqParams _intParams : List String) : NewInfoResult :=
  { inf :=
      { Params := r.Form
        IntParams := fun k =>
          if k = "id" then
            (if r.Form "id" = some "42" then some 42
             else if r.Form "id" = some "999" then some 999 else none)
          else none
        User := { UserName := "admin" }
        ConfigVersion := "1.2" }
    userErr :=
      if reqParams.all (fun k => (r.Form k).isSome) then none
      else some "required parameters missing"
    sysErr := none
    errCode := if reqParams.all (fun k => (r.Form k).isSome) then 0 else 400 }

/-- Sample collaborators over a working database: CDN 42 is `cdn2`, no CDN
has another id, and `cdn1` has the stored snapshot `{"a":1}`. -/
def sampleEnv : Collaborators where
  NewInfo := sampleNewInfo
  Make := fun cdn _ host path _ => ({ CDNName := cdn, JSON := host ++ path }, none)
  Snapshot := fun _ => none
  GetSnapshot := fun cdn => if cdn = "cdn1" then ("\x7b\"a\":1\x7d", true, none) else ("", false, none)
  getCDNNameFromID := fun id => if id = 42 then ("cdn2", true, none) else ("", false, none)
  CreateChangeLogRawTx := fun _ _ _ => none
  PathEscape := fun s => s
  ContentType := "Content-Type"
  ApplicationJson := "application/json"
  ApiChange := "APICHANGE"

/-- The sample collaborators with a `Make` that fails. -/
def makeFailEnv : Collaborators :=
  { sampleEnv with Make := fun cdn _ _ _ _ => ({ CDNName := cdn, JSON := "" }, some "no such CDN") }

/-- The sample collaborators with a `Snapshot` that fails. -/
def snapshotFailEnv : Collaborators :=
  { sampleEnv with Snapshot := fun _ => some "insert failed" }

/-- The sample collaborators with a change-log write that fails. -/
def changeLogFailEnv : Collaborators :=
  { sampleEnv with CreateChangeLogRawTx := fun _ _ _ => some "inserting change log failed" }

/-- The sample collaborators with an `api.NewInfo` that fails with a system
error and no user error. -/
def sysErrEnv : Collaborators :=
  { sampleEnv with
    NewInfo := fun r reqParams intParams =>
      { sampleNewInfo r reqParams intParams with
        userErr := none, sysErr := some "getting db", errCode := 500 } }

/-- A request that carries no parameter. -/
def bareRequest : Request :=
  { Host := "to.example", URLPath := "/snapshot", RemoteAddr := "192.0.2.1:4000",
    Form := fun _ => none }

/-- A request that carries the CDN name `cdn` only. -/
def nameRequest (cdn : String) : Request :=
  { bareRequest with Form := fun k => if k = "cdn" then some cdn else none }

/-- A request that carries the CDN id `id` only, as the text of the id. -/
def idRequest (id : String) : Request :=
  { bareRequest with Form := fun k => if k = "id" then some id else none }


/-! ## The paths of the handlers

One lemma per path through a handler: under the collaborator results that
select the path, the complete outcome of the run. -/

theorem Handler_run_infoErr (env : Collaborators) (r : Request)
    (h : (env.NewInfo r ["cdn"] []).userErr ≠ none ∨ (env.NewInfo r ["cdn"] []).sysErr ≠ none) :
    (Handler env r).run =
      { events := [.NewInfo ["cdn"] [],
          .HandleErr (env.NewInfo r ["cdn"] []).errCode (env.NewInfo r ["cdn"] []).userErr
            (env.NewInfo r ["cdn"] []).sysErr],
        commit := false, panicked := false } := by
  have hc : ((env.NewInfo r ["cdn"] []).userErr != none ||
      (env.NewInfo r ["cdn"] []).sysErr != none) = true := by
    rcases h with h | h <;> simp [h]
  simp [Handler, HandlerM.run, callNewInfo, emit, bind, pure, hc]

theorem Handler_run_makeErr (env : Collaborators) (r : Request) (inf : APIInfo) (code : Nat)
    (crc : CRConfig) (e : String)
    (hni : env.NewInfo r ["cdn"] [] = ⟨inf, none, none, code⟩)
    (hmk : env.Make (inf.Params.index "cdn") inf.User.UserName r.Host r.URLPath inf.ConfigVersion
      = (crc, some e)) :
    (Handler env r).run =
      { events := [.NewInfo ["cdn"] [],
          .Make (inf.Params.index "cdn") inf.User.UserName r.Host r.URLPath inf.ConfigVersion,
          .HandleErr StatusInternalServerError none (some e), .Close],
        commit := false, panicked := false } := by
  simp [Handler, HandlerM.run, callNewInfo, callMake, emit, deferring, bind, pure, hni, hmk]

theorem Handler_run_ok (env : Collaborators) (r : Request) (inf : APIInfo) (code : Nat)
    (crc : CRConfig)
    (hni : env.NewInfo r ["cdn"] [] = ⟨inf, none, none, code⟩)
    (hmk : env.Make (inf.Params.index "cdn") inf.User.UserName r.Host r.URLPath inf.ConfigVersion
      = (crc, none)) :
    (Handler env r).run =
      { events := [.NewInfo ["cdn"] [],
          .Make (inf.Params.index "cdn") inf.User.UserName r.Host r.URLPath inf.ConfigVersion,
          .Infof "CRConfig time to generate: %+v\n", .WriteResp crc, .Close],
        commit := true, panicked := false } := by
  simp [Handler, HandlerM.run, callNewInfo, callMake, emit, deferring, bind, pure, hni, hmk,
    setCommitTx]

theorem SnapshotGetHandler_run_infoErr (env : Collaborators) (r : Request)
    (h : (env.NewInfo r ["cdn"] []).userErr ≠ none ∨ (env.NewInfo r ["cdn"] []).sysErr ≠ none) :
    (SnapshotGetHandler env r).run =
      { events := [.NewInfo ["cdn"] [],
          .HandleErr (env.NewInfo r ["cdn"] []).errCode (env.NewInfo r ["cdn"] []).userErr
            (env.NewInfo r ["cdn"] []).sysErr],
        commit := false, panicked := false } := by
  have hc : ((env.NewInfo r ["cdn"] []).userErr != none ||
      (env.NewInfo r ["cdn"] []).sysErr != none) = true := by
    rcases h with h | h <;> simp [h]
  simp [SnapshotGetHandler, HandlerM.run, callNewInfo, emit, bind, pure, hc]

theorem SnapshotGetHandler_run_storeErr (env : Collaborators) (r : Request) (inf : APIInfo)
    (code : Nat) (snapshot : String) (cdnExists : Bool) (e : String)
    (hni : env.NewInfo r ["cdn"] [] = ⟨inf, none, none, code⟩)
    (hgs : env.GetSnapshot (inf.Params.index "cdn") = (snapshot, cdnExists, some e)) :
    (SnapshotGetHandler env r).run =
      { events := [.NewInfo ["cdn"] [], .GetSnapshot (inf.Params.index "cdn"),
          .HandleErr StatusInternalServerError none (some ("getting snapshot: " ++ e)), .Close],
        commit := false, panicked := false } := by
  simp [SnapshotGetHandler, HandlerM.run, callNewInfo, callGetSnapshot, emit, deferring, bind,
    pure, hni, hgs, GoError.Error, errorsNew]

theorem SnapshotGetHandler_run_unknown (env : Collaborators) (r : Request) (inf : APIInfo)
    (code : Nat) (snapshot : String)
    (hni : env.NewInfo r ["cdn"] [] = ⟨inf, none, none, code⟩)
    (hgs : env.GetSnapshot (inf.Params.index "cdn") = (snapshot, false, none)) :
    (SnapshotGetHandler env r).run =
      { events := [.NewInfo ["cdn"] [], .GetSnapshot (inf.Params.index "cdn"),
          .HandleErr StatusNotFound (some "CDN not found") none, .Close],
        commit := false, panicked := false } := by
  simp [SnapshotGetHandler, HandlerM.run, callNewInfo, callGetSnapshot, emit, deferring, bind,
    pure, hni, hgs, errorsNew]

theorem SnapshotGetHandler_run_ok (env : Collaborators) (r : Request) (inf : APIInfo)
    (code : Nat) (snapshot : String)
    (hni : env.NewInfo r ["cdn"] [] = ⟨inf, none, none, code⟩)
    (hgs : env.GetSnapshot (inf.Params.index "cdn") = (snapshot, true, none)) :
    (SnapshotGetHandler env r).run =
      { events := [.NewInfo ["cdn"] [], .GetSnapshot (inf.Params.index "cdn"),
          .HeaderSet env.ContentType env.ApplicationJson,
          .Write (goBytes ("\x7b\"response\":" ++ snapshot ++ "\x7d")), .Close],
        commit := true, panicked := false } := by
  simp [SnapshotGetHandler, HandlerM.run, callNewInfo, callGetSnapshot, emit, deferring, bind,
    pure, hni, hgs, setCommitTx]

theorem SnapshotOldGetHandler_run_infoErr (env : Collaborators) (r : Request)
    (h : (env.NewInfo r ["cdn"] []).userErr ≠ none ∨ (env.NewInfo r ["cdn"] []).sysErr ≠ none) :
    (SnapshotOldGetHandler env r).run =
      { events := [.NewInfo ["cdn"] [],
          .HandleErr (env.NewInfo r ["cdn"] []).errCode (env.NewInfo r ["cdn"] []).userErr
            (env.NewInfo r ["cdn"] []).sysErr],
        commit := false, panicked := false } := by
  have hc : ((env.NewInfo r ["cdn"] []).userErr != none ||
      (env.NewInfo r ["cdn"] []).sysErr != none) = true := by
    rcases h with h | h <;> simp [h]
  simp [SnapshotOldGetHandler, HandlerM.run, callNewInfo, emit, bind, pure, hc]

theorem SnapshotOldGetHandler_run_storeErr (env : Collaborators) (r : Request) (inf : APIInfo)
    (code : Nat) (snapshot : String) (cdnExists : Bool) (e : String)
    (hni : env.NewInfo r ["cdn"] [] = ⟨inf, none, none, code⟩)
    (hgs : env.GetSnapshot (inf.Params.index "cdn") = (snapshot, cdnExists, some e)) :
    (SnapshotOldGetHandler env r).run =
      { events := [.NewInfo ["cdn"] [], .GetSnapshot (inf.Params.index "cdn"),
          .HandleErr StatusInternalServerError none (some ("getting snapshot: " ++ e)), .Close],
        commit := false, panicked := false } := by
  simp [SnapshotOldGetHandler, HandlerM.run, callNewInfo, callGetSnapshot, emit, deferring, bind,
    pure, hni, hgs, GoError.Error, errorsNew]

theorem SnapshotOldGetHandler_run_unknown (env : Collaborators) (r : Request) (inf : APIInfo)
    (code : Nat) (snapshot : String)
    (hni : env.NewInfo r ["cdn"] [] = ⟨inf, none, none, code⟩)
    (hgs : env.GetSnapshot (inf.Params.index "cdn") = (snapshot, false, none)) :
    (SnapshotOldGetHandler env r).run =
      { events := [.NewInfo ["cdn"] [], .GetSnapshot (inf.Params.index "cdn"),
          .HandleErr StatusNotFound (some "CDN not found") none, .Close],
        commit := false, panicked := false } := by
  simp [SnapshotOldGetHandler, HandlerM.run, callNewInfo, callGetSnapshot, emit, deferring, bind,
    pure, hni, hgs, errorsNew]

theorem SnapshotOldGetHandler_run_ok (env : Collaborators) (r : Request) (inf : APIInfo)
    (code : Nat) (snapshot : String)
    (hni : env.NewInfo r ["cdn"] [] = ⟨inf, none, none, code⟩)
    (hgs : env.GetSnapshot (inf.Params.index "cdn") = (snapshot, true, none)) :
    (SnapshotOldGetHandler env r).run =
      { events := [.NewInfo ["cdn"] [], .GetSnapshot (inf.Params.index "cdn"),
          .HeaderSet env.ContentType env.ApplicationJson, .Write (goBytes snapshot), .Close],
        commit := true, panicked := false } := by
  simp [SnapshotOldGetHandler, HandlerM.run, callNewInfo, callGetSnapshot, emit, deferring, bind,
    pure, hni, hgs, setCommitTx]

theorem resolveCDN_byName (env : Collaborators) (inf : APIInfo) (n : String) (s : HState)
    (hp : inf.Params "cdn" = some n) :
    resolveCDN env inf s = (some (some n), s) := by
  simp [resolveCDN, hp, pure]

theorem resolveCDN_byID (env : Collaborators) (inf : APIInfo) (id : Int) (n : String)
    (s : HState)
    (hp : inf.Params "cdn" = none) (hi : inf.IntParams "id" = some id)
    (hg : env.getCDNNameFromID id = (n, true, none)) :
    resolveCDN env inf s =
      (some (some n), { events := s.events ++ [.getCDNNameFromID id], commit := s.commit }) := by
  simp [resolveCDN, hp, hi, hg, callGetCDNNameFromID, emit, bind, pure]

theorem SnapshotHandler_run_infoErr (env : Collaborators) (r : Request)
    (h : (env.NewInfo r [] ["id"]).userErr ≠ none ∨ (env.NewInfo r [] ["id"]).sysErr ≠ none) :
    (SnapshotHandler env r).run =
      { events := [.NewInfo [] ["id"],
          .HandleErr (env.NewInfo r [] ["id"]).errCode (env.NewInfo r [] ["id"]).userErr
            (env.NewInfo r [] ["id"]).sysErr],
        commit := false, panicked := false } := by
  have hc : ((env.NewInfo r [] ["id"]).userErr != none ||
      (env.NewInfo r [] ["id"]).sysErr != none) = true := by
    rcases h with h | h <;> simp [h]
  simp [SnapshotHandler, HandlerM.run, callNewInfo, emit, bind, pure, hc]

theorem SnapshotHandler_run_missing (env : Collaborators) (r : Request) (inf : APIInfo)
    (code : Nat)
    (hni : env.NewInfo r [] ["id"] = ⟨inf, none, none, code⟩)
    (hp : inf.Params "cdn" = none) (hi : inf.IntParams "id" = none) :
    (SnapshotHandler env r).run =
      { events := [.NewInfo [] ["id"],
          .HandleErr StatusNotFound (some "params missing CDN") none, .Close],
        commit := false, panicked := false } := by
  simp [SnapshotHandler, resolveCDN, HandlerM.run, callNewInfo, emit, deferring, bind, pure,
    hni, hp, hi, errorsNew]

theorem SnapshotHandler_run_lookupErr (env : Collaborators) (r : Request) (inf : APIInfo)
    (code : Nat) (id : Int) (name : String) (ok : Bool) (e : String)
    (hni : env.NewInfo r [] ["id"] = ⟨inf, none, none, code⟩)
    (hp : inf.Params "cdn" = none) (hi : inf.IntParams "id" = some id)
    (hg : env.getCDNNameFromID id = (name, ok, some e)) :
    (SnapshotHandler env r).run =
      { events := [.NewInfo [] ["id"], .getCDNNameFromID id,
          .HandleErr StatusInternalServerError none
            (some ("Error getting CDN name from ID: " ++ e)), .Close],
        commit := false, panicked := false } := by
  simp [SnapshotHandler, resolveCDN, HandlerM.run, callNewInfo, callGetCDNNameFromID, emit,
    deferring, bind, pure, hni, hp, hi, hg, errorsNew, GoError.Error]

theorem SnapshotHandler_run_noSuchID (env : Collaborators) (r : Request) (inf : APIInfo)
    (code : Nat) (id : Int) (name : String)
    (hni : env.NewInfo r [] ["id"] = ⟨inf, none, none, code⟩)
    (hp : inf.Params "cdn" = none) (hi : inf.IntParams "id" = some id)
    (hg : env.getCDNNameFromID id = (name, false, none)) :
    (SnapshotHandler env r).run =
      { events := [.NewInfo [] ["id"], .getCDNNameFromID id,
          .HandleErr StatusNotFound (some "No CDN found with that ID") none, .Close],
        commit := false, panicked := false } := by
  simp [SnapshotHandler, resolveCDN, HandlerM.run, callNewInfo, callGetCDNNameFromID, emit,
    deferring, bind, pure, hni, hp, hi, hg, errorsNew]

theorem SnapshotHandler_run_makeErr (env : Collaborators) (r : Request) (inf : APIInfo)
    (code : Nat) (n : String) (pre : List Event) (crc : CRConfig) (e : String)
    (hni : env.NewInfo r [] ["id"] = ⟨inf, none, none, code⟩)
    (hres : ∀ s, resolveCDN env inf s =
      (some (some n), { events := s.events ++ pre, commit := s.commit }))
    (hmk : env.Make n inf.User.UserName r.Host r.URLPath inf.ConfigVersion = (crc, some e)) :
    (SnapshotHandler env r).run =
      { events := [.NewInfo [] ["id"]] ++ pre ++
          [.Make n inf.User.UserName r.Host r.URLPath inf.ConfigVersion,
           .HandleErr StatusInternalServerError none (some e), .Close],
        commit := false, panicked := false } := by
  simp [SnapshotHandler, HandlerM.run, callNewInfo, callMake, emit, deferring, bind, pure,
    hni, hres, hmk]

theorem SnapshotHandler_run_snapshotErr (env : Collaborators) (r : Request) (inf : APIInfo)
    (code : Nat) (n : String) (pre : List Event) (crc : CRConfig) (e : String)
    (hni : env.NewInfo r [] ["id"] = ⟨inf, none, none, code⟩)
    (hres : ∀ s, resolveCDN env inf s =
      (some (some n), { events := s.events ++ pre, commit := s.commit }))
    (hmk : env.Make n inf.User.UserName r.Host r.URLPath inf.ConfigVersion = (crc, none))
    (hsn : env.Snapshot crc = some e) :
    (SnapshotHandler env r).run =
      { events := [.NewInfo [] ["id"]] ++ pre ++
          [.Make n inf.User.UserName r.Host r.URLPath inf.ConfigVersion, .Snapshot crc,
           .HandleErr StatusInternalServerError none
             (some (r.RemoteAddr ++ " snaphsotting CRConfig: " ++ e)), .Close],
        commit := false, panicked := false } := by
  simp [SnapshotHandler, HandlerM.run, callNewInfo, callMake, callSnapshot, emit, deferring,
    bind, pure, hni, hres, hmk, hsn, errorsNew, GoError.Error]

theorem SnapshotHandler_run_ok (env : Collaborators) (r : Request) (inf : APIInfo)
    (code : Nat) (n : String) (pre : List Event) (crc : CRConfig)
    (hni : env.NewInfo r [] ["id"] = ⟨inf, none, none, code⟩)
    (hres : ∀ s, resolveCDN env inf s =
      (some (some n), { events := s.events ++ pre, commit := s.commit }))
    (hmk : env.Make n inf.User.UserName r.Host r.URLPath inf.ConfigVersion = (crc, none))
    (hsn : env.Snapshot crc = none) :
    (SnapshotHandler env r).run =
      { events := [.NewInfo [] ["id"]] ++ pre ++
          [.Make n inf.User.UserName r.Host r.URLPath inf.ConfigVersion, .Snapshot crc,
           .CreateChangeLogRawTx env.ApiChange ("Snapshot of CRConfig performed for " ++ n)
             inf.User,
           .WriteHeader StatusOK, .Close],
        commit := true, panicked := false } := by
  simp [SnapshotHandler, HandlerM.run, callNewInfo, callMake, callSnapshot,
    callCreateChangeLogRawTx, emit, deferring, bind, pure, hni, hres, hmk, hsn, setCommitTx]

theorem SnapshotOldGUIHandler_run_bothErr (env : Collaborators) (r : Request) (inf : APIInfo)
    (code : Nat) (ue se : String)
    (hni : env.NewInfo r ["cdn"] [] = ⟨inf, some ue, some se, code⟩) :
    (SnapshotOldGUIHandler env r).run =
      { events := [.NewInfo ["cdn"] [],
          .Errorln (r.RemoteAddr ++ " unable to get info from request: " ++ se),
          .writePerlHTMLErr (some ue),
          .Redirect ("/tools/flash_and_close/" ++ env.PathEscape ("Error: " ++ ue)) StatusFound],
        commit := false, panicked := false } := by
  simp [SnapshotOldGUIHandler, writePerlHTMLErr, HandlerM.run, callNewInfo, emit, bind, pure,
    hni, GoError.Error]

theorem SnapshotOldGUIHandler_run_userErrOnly (env : Collaborators) (r : Request)
    (inf : APIInfo) (code : Nat) (ue : String)
    (hni : env.NewInfo r ["cdn"] [] = ⟨inf, some ue, none, code⟩) :
    (SnapshotOldGUIHandler env r).run =
      { events := [.NewInfo ["cdn"] []], commit := false, panicked := true } := by
  simp [SnapshotOldGUIHandler, writePerlHTMLErr, HandlerM.run, callNewInfo, emit, bind, pure,
    hni, GoError.Error]

theorem SnapshotOldGUIHandler_run_sysErrOnly (env : Collaborators) (r : Request)
    (inf : APIInfo) (code : Nat) (se : String)
    (hni : env.NewInfo r ["cdn"] [] = ⟨inf, none, some se, code⟩) :
    (SnapshotOldGUIHandler env r).run =
      { events := [.NewInfo ["cdn"] [],
          .Errorln (r.RemoteAddr ++ " unable to get info from request: " ++ se),
          .writePerlHTMLErr none],
        commit := false, panicked := true } := by
  simp [SnapshotOldGUIHandler, writePerlHTMLErr, HandlerM.run, callNewInfo, emit, bind, pure,
    hni, GoError.Error]

theorem SnapshotOldGUIHandler_run_makeErr (env : Collaborators) (r : Request) (inf : APIInfo)
    (code : Nat) (crc : CRConfig) (e : String)
    (hni : env.NewInfo r ["cdn"] [] = ⟨inf, none, none, code⟩)
    (hmk : env.Make (inf.Params.index "cdn") inf.User.UserName r.Host r.URLPath inf.ConfigVersion
      = (crc, some e)) :
    (SnapshotOldGUIHandler env r).run =
      { events := [.NewInfo ["cdn"] [],
          .Make (inf.Params.index "cdn") inf.User.UserName r.Host r.URLPath inf.ConfigVersion,
          .Errorln (r.RemoteAddr ++ " making CRConfig: " ++ e),
          .writePerlHTMLErr (some e),
          .Redirect ("/tools/flash_and_close/" ++ env.PathEscape ("Error: " ++ e)) StatusFound,
          .Close],
        commit := false, panicked := false } := by
  simp [SnapshotOldGUIHandler, writePerlHTMLErr, HandlerM.run, callNewInfo, callMake, emit,
    deferring, bind, pure, hni, hmk, GoError.Error]

theorem SnapshotOldGUIHandler_run_snapshotErr (env : Collaborators) (r : Request)
    (inf : APIInfo) (code : Nat) (crc : CRConfig) (e : String)
    (hni : env.NewInfo r ["cdn"] [] = ⟨inf, none, none, code⟩)
    (hmk : env.Make (inf.Params.index "cdn") inf.User.UserName r.Host r.URLPath inf.ConfigVersion
      = (crc, none))
    (hsn : env.Snapshot crc = some e) :
    (SnapshotOldGUIHandler env r).run =
      { events := [.NewInfo ["cdn"] [],
          .Make (inf.Params.index "cdn") inf.User.UserName r.Host r.URLPath inf.ConfigVersion,
          .Snapshot crc,
          .Errorln (r.RemoteAddr ++ " making CRConfig: " ++ e),
          .writePerlHTMLErr (some e),
          .Redirect ("/tools/flash_and_close/" ++ env.PathEscape ("Error: " ++ e)) StatusFound,
          .Close],
        commit := false, panicked := false } := by
  simp [SnapshotOldGUIHandler, writePerlHTMLErr, HandlerM.run, callNewInfo, callMake,
    callSnapshot, emit, deferring, bind, pure, hni, hmk, hsn, GoError.Error]

theorem SnapshotOldGUIHandler_run_ok (env : Collaborators) (r : Request) (inf : APIInfo)
    (code : Nat) (crc : CRConfig)
    (hni : env.NewInfo r ["cdn"] [] = ⟨inf, none, none, code⟩)
    (hmk : env.Make (inf.Params.index "cdn") inf.User.UserName r.Host r.URLPath inf.ConfigVersion
      = (crc, none))
    (hsn : env.Snapshot crc = none) :
    (SnapshotOldGUIHandler env r).run =
      { events := [.NewInfo ["cdn"] [],
          .Make (inf.Params.index "cdn") inf.User.UserName r.Host r.URLPath inf.ConfigVersion,
          .Snapshot crc,
          .CreateChangeLogRawTx env.ApiChange
            ("Snapshot of CRConfig performed for " ++ inf.Params.index "cdn") inf.User,
          .Redirect ("/tools/flash_and_close/" ++
            env.PathEscape "Successfully wrote the CRConfig.json!") StatusFound,
          .Close],
        commit := true, panicked := false } := by
  simp [SnapshotOldGUIHandler, HandlerM.run, callNewInfo, callMake, callSnapshot,
    callCreateChangeLogRawTx, emit, deferring, bind, pure, hni, hmk, hsn, setCommitTx]

/-! ## Resolution of the CDN name in `SnapshotHandler` -/

/-- When the request names its CDN, by the `cdn` parameter or else by an `id`
that `getCDNNameFromID` finds, `resolveCDN` yields that name; the only call it
may add to the trace is the one to `getCDNNameFromID`. -/
theorem resolveCDN_resolved (env : Collaborators) (inf : APIInfo) (n : String)
    (hres : inf.Params "cdn" = some n ∨
      (inf.Params "cdn" = none ∧
        ∃ id, inf.IntParams "id" = some id ∧ env.getCDNNameFromID id = (n, true, none))) :
    ∃ pre : List Event, (pre = [] ∨ ∃ id, pre = [.getCDNNameFromID id]) ∧
      ∀ s, resolveCDN env inf s =
        (some (some n), { events := s.events ++ pre, commit := s.commit }) := by
  rcases hres with hp | ⟨hp, id, hi, hg⟩
  · exact ⟨[], Or.inl rfl, fun s => by simp [resolveCDN_byName env inf n s hp]⟩
  · exact ⟨[.getCDNNameFromID id], Or.inr ⟨id, rfl⟩,
      fun s => resolveCDN_byID env inf id n s hp hi hg⟩

/-! ## The claims -/

/-- C1: in each of the five handlers, whatever the collaborators return, the
commit flag is never set on a run that answered with an error (a call of
`api.HandleErr` or of `writePerlHTMLErr`), nor on a run that panicked. -/
theorem commit_only_without_error_response (env : Collaborators) (r : Request) :
    (((Handler env r).run.commit &&
        ((Handler env r).run.tookErrorPath || (Handler env r).run.panicked)) = false) ∧
    (((SnapshotGetHandler env r).run.commit &&
        ((SnapshotGetHandler env r).run.tookErrorPath ||
          (SnapshotGetHandler env r).run.panicked)) = false) ∧
    (((SnapshotOldGetHandler env r).run.commit &&
        ((SnapshotOldGetHandler env r).run.tookErrorPath ||
          (SnapshotOldGetHandler env r).run.panicked)) = false) ∧
    (((SnapshotHandler env r).run.commit &&
        ((SnapshotHandler env r).run.tookErrorPath ||
          (SnapshotHandler env r).run.panicked)) = false) ∧
    (((SnapshotOldGUIHandler env r).run.commit &&
        ((SnapshotOldGUIHandler env r).run.tookErrorPath ||
          (SnapshotOldGUIHandler env r).run.panicked)) = false) := by
  refine ⟨?_, ?_, ?_, ?_, ?_⟩
  · rcases hni : env.NewInfo r ["cdn"] [] with ⟨inf, _ | ue, _ | se, code⟩
    · rcases hmk : env.Make (inf.Params.index "cdn") inf.User.UserName r.Host r.URLPath
        inf.ConfigVersion with ⟨crc, _ | e⟩
      · rw [Handler_run_ok env r inf code crc hni hmk]; rfl
      · rw [Handler_run_makeErr env r inf code crc e hni hmk]; rfl
    all_goals rw [Handler_run_infoErr env r (by simp [hni])]; rfl
  · rcases hni : env.NewInfo r ["cdn"] [] with ⟨inf, _ | ue, _ | se, code⟩
    · rcases hgs : env.GetSnapshot (inf.Params.index "cdn") with ⟨snap, ex, _ | e⟩
      · cases ex
        · rw [SnapshotGetHandler_run_unknown env r inf code snap hni hgs]; rfl
        · rw [SnapshotGetHandler_run_ok env r inf code snap hni hgs]; rfl
      · rw [SnapshotGetHandler_run_storeErr env r inf code snap ex e hni hgs]; rfl
    all_goals rw [SnapshotGetHandler_run_infoErr env r (by simp [hni])]; rfl
  · rcases hni : env.NewInfo r ["cdn"] [] with ⟨inf, _ | ue, _ | se, code⟩
    · rcases hgs : env.GetSnapshot (inf.Params.index "cdn") with ⟨snap, ex, _ | e⟩
      · cases ex
        · rw [SnapshotOldGetHandler_run_unknown env r inf code snap hni hgs]; rfl
        · rw [SnapshotOldGetHandler_run_ok env r inf code snap hni hgs]; rfl
      · rw [SnapshotOldGetHandler_run_storeErr env r inf code snap ex e hni hgs]; rfl
    all_goals rw [SnapshotOldGetHandler_run_infoErr env r (by simp [hni])]; rfl
  · rcases hni : env.NewInfo r [] ["id"] with ⟨inf, _ | ue, _ | se, code⟩
    · have key : ∀ (n : String) (pre : List Event),
          (pre = [] ∨ ∃ id, pre = [.getCDNNameFromID id]) →
          (∀ s, resolveCDN env inf s =
            (some (some n), { events := s.events ++ pre, commit := s.commit })) →
          ((SnapshotHandler env r).run.commit &&
            ((SnapshotHandler env r).run.tookErrorPath ||
              (SnapshotHandler env r).run.panicked)) = false := by
        intro n pre hpre hres
        rcases hmk : env.Make n inf.User.UserName r.Host r.URLPath inf.ConfigVersion
          with ⟨crc, _ | e⟩
        · rcases hsn : env.Snapshot crc with _ | e
          · rw [SnapshotHandler_run_ok env r inf code n pre crc hni hres hmk hsn]
            rcases hpre with rfl | ⟨id, rfl⟩ <;> rfl
          · rw [SnapshotHandler_run_snapshotErr env r inf code n pre crc e hni hres hmk hsn]
            rfl
        · rw [SnapshotHandler_run_makeErr env r inf code n pre crc e hni hres hmk]; rfl
      rcases hp : inf.Params "cdn" with _ | n
      · rcases hi : inf.IntParams "id" with _ | id
        · rw [SnapshotHandler_run_missing env r inf code hni hp hi]; rfl
        · rcases hg : env.getCDNNameFromID id with ⟨name, ok, _ | e⟩
          · cases ok
            · rw [SnapshotHandler_run_noSuchID env r inf code id name hni hp hi hg]; rfl
            · exact key name [.getCDNNameFromID id] (Or.inr ⟨id, rfl⟩)
                (fun s => resolveCDN_byID env inf id name s hp hi hg)
          · rw [SnapshotHandler_run_lookupErr env r inf code id name ok e hni hp hi hg]; rfl
      · exact key n [] (Or.inl rfl)
          (fun s => by simp [resolveCDN_byName env inf n s hp])
    all_goals rw [SnapshotHandler_run_infoErr env r (by simp [hni])]; rfl
  · rcases hni : env.NewInfo r ["cdn"] [] with ⟨inf, _ | ue, _ | se, code⟩
    · rcases hmk : env.Make (inf.Params.index "cdn") inf.User.UserName r.Host r.URLPath
        inf.ConfigVersion with ⟨crc, _ | e⟩
      · rcases hsn : env.Snapshot crc with _ | e
        · rw [SnapshotOldGUIHandler_run_ok env r inf code crc hni hmk hsn]; rfl
        · rw [SnapshotOldGUIHandler_run_snapshotErr env r inf code crc e hni hmk hsn]; rfl
      · rw [SnapshotOldGUIHandler_run_makeErr env r inf code crc e hni hmk]; rfl
    · rw [SnapshotOldGUIHandler_run_sysErrOnly env r inf code se hni]; rfl
    · rw [SnapshotOldGUIHandler_run_userErrOnly env r inf code ue hni]; rfl
    · rw [SnapshotOldGUIHandler_run_bothErr env r inf code ue se hni]; rfl

/-- C2: in `SnapshotHandler`, on a request whose CDN name resolves to `n`, if
`Make` returns an error or `Snapshot` returns an error, then
`api.CreateChangeLogRawTx` is not called, the commit flag stays unset and the
response has status 500; when it is `Make` that fails, `Snapshot` is not
called either. -/
theorem SnapshotHandler_failure_aborts (env : Collaborators) (r : Request) (inf : APIInfo)
    (code : Nat) (n : String)
    (hni : env.NewInfo r [] ["id"] = ⟨inf, none, none, code⟩)
    (hres : inf.Params "cdn" = some n ∨
      (inf.Params "cdn" = none ∧
        ∃ id, inf.IntParams "id" = some id ∧ env.getCDNNameFromID id = (n, true, none)))
    (hfail : (env.Make n inf.User.UserName r.Host r.URLPath inf.ConfigVersion).2 ≠ none ∨
      env.Snapshot (env.Make n inf.User.UserName r.Host r.URLPath inf.ConfigVersion).1 ≠ none) :
    (SnapshotHandler env r).run.changeLogs = [] ∧
    (SnapshotHandler env r).run.commit = false ∧
    (SnapshotHandler env r).run.responseStatus = some StatusInternalServerError ∧
    (SnapshotHandler env r).run.panicked = false ∧
    ((env.Make n inf.User.UserName r.Host r.URLPath inf.ConfigVersion).2 ≠ none →
      (SnapshotHandler env r).run.snapshotCalls = []) := by
  obtain ⟨pre, hpre, hrun⟩ := resolveCDN_resolved env inf n hres
  rcases hmk : env.Make n inf.User.UserName r.Host r.URLPath inf.ConfigVersion
    with ⟨crc, _ | e⟩
  · rw [hmk] at hfail
    rcases hsn : env.Snapshot crc with _ | e
    · simp [hsn] at hfail
    · rw [SnapshotHandler_run_snapshotErr env r inf code n pre crc e hni hrun hmk hsn]
      rcases hpre with rfl | ⟨id, rfl⟩ <;>
        simp [Outcome.changeLogs, Outcome.responseStatus, Event.status?]
  · rw [SnapshotHandler_run_makeErr env r inf code n pre crc e hni hrun hmk]
    rcases hpre with rfl | ⟨id, rfl⟩ <;>
      simp [Outcome.changeLogs, Outcome.responseStatus, Event.status?, Outcome.snapshotCalls]

/-- C2, instance: the sample request for CDN id 42 when `Snapshot` fails. -/
theorem SnapshotHandler_failure_aborts_witness :
    (SnapshotHandler snapshotFailEnv (idRequest "42")).run.changeLogs = [] ∧
    (SnapshotHandler snapshotFailEnv (idRequest "42")).run.commit = false ∧
    (SnapshotHandler snapshotFailEnv (idRequest "42")).run.responseStatus = some 500 ∧
    (SnapshotHandler snapshotFailEnv (idRequest "42")).run.panicked = false ∧
    ((snapshotFailEnv.Make "cdn2" "admin" "to.example" "/snapshot" "1.2").2 ≠ none →
      (SnapshotHandler snapshotFailEnv (idRequest "42")).run.snapshotCalls = []) :=
  SnapshotHandler_failure_aborts snapshotFailEnv (idRequest "42")
    (sampleNewInfo (idRequest "42") [] ["id"]).inf 0 "cdn2" rfl
    (Or.inr ⟨by decide, 42, by decide, by decide⟩) (Or.inr (by decide))

/-- C3, as stated, fails: with `Make` and `Snapshot` succeeding and the write
of the change-log entry failing, `SnapshotHandler` still sets the commit flag
and answers 200, and `SnapshotOldGUIHandler` still sets the commit flag and
answers with the success redirect, not through `writePerlHTMLErr`. -/
theorem changeLog_failure_does_not_abort :
    changeLogFailEnv.CreateChangeLogRawTx "APICHANGE" "Snapshot of CRConfig performed for cdn1"
        { UserName := "admin" } ≠ none ∧
    (SnapshotHandler changeLogFailEnv (nameRequest "cdn1")).run.commit = true ∧
    (SnapshotHandler changeLogFailEnv (nameRequest "cdn1")).run.responseStatus = some 200 ∧
    (SnapshotHandler changeLogFailEnv (nameRequest "cdn1")).run.changeLogs =
      ["Snapshot of CRConfig performed for cdn1"] ∧
    (SnapshotOldGUIHandler changeLogFailEnv (nameRequest "cdn1")).run.commit = true ∧
    (SnapshotOldGUIHandler changeLogFailEnv (nameRequest "cdn1")).run.tookErrorPath = false ∧
    (SnapshotOldGUIHandler changeLogFailEnv (nameRequest "cdn1")).run.redirects =
      [("/tools/flash_and_close/Successfully wrote the CRConfig.json!", 302)] := by
  decide

/-- C3, amended: the handlers do not inspect the outcome of writing the
change-log entry.  Replacing that outcome by any other leaves the run of
`SnapshotHandler` and of `SnapshotOldGUIHandler` unchanged; and whenever
`Make` and `Snapshot` succeed, the entry is written once, the commit flag is
set and the response is the success response: status 200 for
`SnapshotHandler`, the success redirect for `SnapshotOldGUIHandler`. -/
theorem changeLog_outcome_ignored (env : Collaborators) (r : Request) :
    (∀ f : String → String → CurrentUser → GoError,
      (SnapshotHandler { env with CreateChangeLogRawTx := f } r).run =
        (SnapshotHandler env r).run ∧
      (SnapshotOldGUIHandler { env with CreateChangeLogRawTx := f } r).run =
        (SnapshotOldGUIHandler env r).run) ∧
    (∀ (inf : APIInfo) (code : Nat) (n : String) (crc : CRConfig),
      env.NewInfo r [] ["id"] = ⟨inf, none, none, code⟩ →
      (inf.Params "cdn" = some n ∨
        (inf.Params "cdn" = none ∧
          ∃ id, inf.IntParams "id" = some id ∧ env.getCDNNameFromID id = (n, true, none))) →
      env.Make n inf.User.UserName r.Host r.URLPath inf.ConfigVersion = (crc, none) →
      env.Snapshot crc = none →
      (SnapshotHandler env r).run.changeLogs = ["Snapshot of CRConfig performed for " ++ n] ∧
      (SnapshotHandler env r).run.commit = true ∧
      (SnapshotHandler env r).run.responseStatus = some StatusOK) ∧
    (∀ (inf : APIInfo) (code : Nat) (crc : CRConfig),
      env.NewInfo r ["cdn"] [] = ⟨inf, none, none, code⟩ →
      env.Make (inf.Params.index "cdn") inf.User.UserName r.Host r.URLPath inf.ConfigVersion
        = (crc, none) →
      env.Snapshot crc = none →
      (SnapshotOldGUIHandler env r).run.changeLogs =
        ["Snapshot of CRConfig performed for " ++ inf.Params.index "cdn"] ∧
      (SnapshotOldGUIHandler env r).run.commit = true ∧
      (SnapshotOldGUIHandler env r).run.tookErrorPath = false ∧
      (SnapshotOldGUIHandler env r).run.redirects =
        [("/tools/flash_and_close/" ++ env.PathEscape "Successfully wrote the CRConfig.json!",
          StatusFound)]) := by
  refine ⟨fun f => ⟨rfl, rfl⟩, ?_, ?_⟩
  · intro inf code n crc hni hres hmk hsn
    obtain ⟨pre, hpre, hrun⟩ := resolveCDN_resolved env inf n hres
    rw [SnapshotHandler_run_ok env r inf code n pre crc hni hrun hmk hsn]
    rcases hpre with rfl | ⟨id, rfl⟩ <;>
      simp [Outcome.changeLogs, Outcome.responseStatus, Event.status?]
  · intro inf code crc hni hmk hsn
    rw [SnapshotOldGUIHandler_run_ok env r inf code crc hni hmk hsn]
    simp [Outcome.changeLogs, Outcome.tookErrorPath, Event.isErrorResponse, Outcome.redirects]

/-- C3, amended, instance: the sample request for `cdn1` when the write of the
change-log entry fails. -/
theorem changeLog_outcome_ignored_witness :
    (SnapshotHandler changeLogFailEnv (nameRequest "cdn1")).run.changeLogs =
        ["Snapshot of CRConfig performed for " ++ "cdn1"] ∧
      (SnapshotHandler changeLogFailEnv (nameRequest "cdn1")).run.commit = true ∧
      (SnapshotHandler changeLogFailEnv (nameRequest "cdn1")).run.responseStatus =
        some StatusOK :=
  (changeLog_outcome_ignored changeLogFailEnv (nameRequest "cdn1")).2.1
    (sampleNewInfo (nameRequest "cdn1") [] ["id"]).inf 0 "cdn1"
    { CDNName := "cdn1", JSON := "to.example/snapshot" } rfl (Or.inl (by decide))
    (by decide) (by decide)

/-- C4: in `SnapshotHandler`, when the request carries neither a `cdn` name
nor an `id`, or carries only an `id` for which `getCDNNameFromID` reports no
CDN (`ok` false, no error), the response has status 404, none of `Make`,
`Snapshot` and `api.CreateChangeLogRawTx` is called, and the commit flag stays
unset. -/
theorem SnapshotHandler_unresolved_notFound (env : Collaborators) (r : Request)
    (inf : APIInfo) (code : Nat)
    (hni : env.NewInfo r [] ["id"] = ⟨inf, none, none, code⟩)
    (hp : inf.Params "cdn" = none)
    (hid : inf.IntParams "id" = none ∨
      ∃ id name, inf.IntParams "id" = some id ∧
        env.getCDNNameFromID id = (name, false, none)) :
    (SnapshotHandler env r).run.responseStatus = some StatusNotFound ∧
    (SnapshotHandler env r).run.makeCalls = [] ∧
    (SnapshotHandler env r).run.snapshotCalls = [] ∧
    (SnapshotHandler env r).run.changeLogs = [] ∧
    (SnapshotHandler env r).run.commit = false ∧
    (SnapshotHandler env r).run.panicked = false := by
  rcases hid with hi | ⟨id, name, hi, hg⟩
  · rw [SnapshotHandler_run_missing env r inf code hni hp hi]
    simp [Outcome.responseStatus, Event.status?, Outcome.makeCalls, Outcome.snapshotCalls,
      Outcome.changeLogs]
  · rw [SnapshotHandler_run_noSuchID env r inf code id name hni hp hi hg]
    simp [Outcome.responseStatus, Event.status?, Outcome.makeCalls, Outcome.snapshotCalls,
      Outcome.changeLogs]

/-- C4, instance: the sample request for CDN id 999, which no CDN has. -/
theorem SnapshotHandler_unresolved_notFound_witness :
    (SnapshotHandler sampleEnv (idRequest "999")).run.responseStatus = some StatusNotFound ∧
    (SnapshotHandler sampleEnv (idRequest "999")).run.makeCalls = [] ∧
    (SnapshotHandler sampleEnv (idRequest "999")).run.snapshotCalls = [] ∧
    (SnapshotHandler sampleEnv (idRequest "999")).run.changeLogs = [] ∧
    (SnapshotHandler sampleEnv (idRequest "999")).run.commit = false ∧
    (SnapshotHandler sampleEnv (idRequest "999")).run.panicked = false :=
  SnapshotHandler_unresolved_notFound sampleEnv (idRequest "999")
    (sampleNewInfo (idRequest "999") [] ["id"]).inf 0 rfl (by decide)
    (Or.inr ⟨999, "", by decide, by decide⟩)

/-- C5: `SnapshotHandler` on a request that carries only an id which
`getCDNNameFromID` resolves to `n` and `SnapshotHandler` on a request that
carries `cdn = n`, for the same user, API version, host and path, give the
same response status, pass the same documents to `Snapshot`, take the same
commit decision and write the same change-log messages; when the run commits,
the message is `Snapshot of CRConfig performed for ` followed by `n`. -/
theorem SnapshotHandler_id_same_as_name (env : Collaborators) (rID rName : Request)
    (infID infName : APIInfo) (codeID codeName : Nat) (id : Int) (n : String)
    (hniID : env.NewInfo rID [] ["id"] = ⟨infID, none, none, codeID⟩)
    (hniName : env.NewInfo rName [] ["id"] = ⟨infName, none, none, codeName⟩)
    (hpID : infID.Params "cdn" = none) (hiID : infID.IntParams "id" = some id)
    (hg : env.getCDNNameFromID id = (n, true, none))
    (hpName : infName.Params "cdn" = some n)
    (hUser : infID.User = infName.User) (hVer : infID.ConfigVersion = infName.ConfigVersion)
    (hHost : rID.Host = rName.Host) (hPath : rID.URLPath = rName.URLPath) :
    (SnapshotHandler env rID).run.responseStatus =
      (SnapshotHandler env rName).run.responseStatus ∧
    (SnapshotHandler env rID).run.snapshotCalls =
      (SnapshotHandler env rName).run.snapshotCalls ∧
    (SnapshotHandler env rID).run.commit = (SnapshotHandler env rName).run.commit ∧
    (SnapshotHandler env rID).run.changeLogs = (SnapshotHandler env rName).run.changeLogs ∧
    ((SnapshotHandler env rID).run.commit = true →
      (SnapshotHandler env rID).run.changeLogs =
        ["Snapshot of CRConfig performed for " ++ n]) := by
  have hresID := fun s => resolveCDN_byID env infID id n s hpID hiID hg
  have hresName : ∀ s, resolveCDN env infName s =
      (some (some n), { events := s.events ++ [], commit := s.commit }) :=
    fun s => by simp [resolveCDN_byName env infName n s hpName]
  rcases hmk : env.Make n infName.User.UserName rName.Host rName.URLPath infName.ConfigVersion
    with ⟨crc, _ | e⟩
  · have hmk2 : env.Make n infID.User.UserName rID.Host rID.URLPath infID.ConfigVersion
        = (crc, none) := by rw [hUser, hVer, hHost, hPath]; exact hmk
    rcases hsn : env.Snapshot crc with _ | e
    · rw [SnapshotHandler_run_ok env rID infID codeID n _ crc hniID hresID hmk2 hsn,
        SnapshotHandler_run_ok env rName infName codeName n _ crc hniName hresName hmk hsn]
      simp [Outcome.changeLogs, Outcome.responseStatus, Event.status?, Outcome.snapshotCalls]
    · rw [SnapshotHandler_run_snapshotErr env rID infID codeID n _ crc e hniID hresID hmk2 hsn,
        SnapshotHandler_run_snapshotErr env rName infName codeName n _ crc e hniName hresName
          hmk hsn]
      simp [Outcome.changeLogs, Outcome.responseStatus, Event.status?, Outcome.snapshotCalls]
  · have hmk2 : env.Make n infID.User.UserName rID.Host rID.URLPath infID.ConfigVersion
        = (crc, some e) := by rw [hUser, hVer, hHost, hPath]; exact hmk
    rw [SnapshotHandler_run_makeErr env rID infID codeID n _ crc e hniID hresID hmk2,
      SnapshotHandler_run_makeErr env rName infName codeName n _ crc e hniName hresName hmk]
    simp [Outcome.changeLogs, Outcome.responseStatus, Event.status?, Outcome.snapshotCalls]

/-- C5, instance: the sample requests for CDN id 42 and for the name `cdn2`
it resolves to; the change-log message names `cdn2`. -/
theorem SnapshotHandler_id_same_as_name_witness :
    ((SnapshotHandler sampleEnv (idRequest "42")).run.responseStatus =
      (SnapshotHandler sampleEnv (nameRequest "cdn2")).run.responseStatus ∧
    (SnapshotHandler sampleEnv (idRequest "42")).run.snapshotCalls =
      (SnapshotHandler sampleEnv (nameRequest "cdn2")).run.snapshotCalls ∧
    (SnapshotHandler sampleEnv (idRequest "42")).run.commit =
      (SnapshotHandler sampleEnv (nameRequest "cdn2")).run.commit ∧
    (SnapshotHandler sampleEnv (idRequest "42")).run.changeLogs =
      (SnapshotHandler sampleEnv (nameRequest "cdn2")).run.changeLogs ∧
    ((SnapshotHandler sampleEnv (idRequest "42")).run.commit = true →
      (SnapshotHandler sampleEnv (idRequest "42")).run.changeLogs =
        ["Snapshot of CRConfig performed for " ++ "cdn2"])) ∧
    (SnapshotHandler sampleEnv (idRequest "42")).run.changeLogs =
      ["Snapshot of CRConfig performed for cdn2"] :=
  ⟨SnapshotHandler_id_same_as_name sampleEnv (idRequest "42") (nameRequest "cdn2")
    (sampleNewInfo (idRequest "42") [] ["id"]).inf
    (sampleNewInfo (nameRequest "cdn2") [] ["id"]).inf 0 0 42 "cdn2" rfl rfl
    (by decide) (by decide) (by decide) (by decide) rfl rfl rfl rfl, by decide⟩

/-- C6: in `SnapshotGetHandler` and in `SnapshotOldGetHandler`, for every
outcome `(snapshot, cdnExists, err)` of `GetSnapshot`: the status is 500
exactly when `err` is not nil, 404 exactly when `err` is nil and `cdnExists`
is false, 200 exactly when `err` is nil and `cdnExists` is true, and in that
last case the body written holds the snapshot (in its envelope, or bare); in
the other two cases nothing is written through `w.Write`. -/
theorem getHandlers_status (env : Collaborators) (r : Request) (inf : APIInfo) (code : Nat)
    (hni : env.NewInfo r ["cdn"] [] = ⟨inf, none, none, code⟩) :
    (((SnapshotGetHandler env r).run.responseStatus = some StatusInternalServerError ↔
        (env.GetSnapshot (inf.Params.index "cdn")).2.2 ≠ none) ∧
      ((SnapshotGetHandler env r).run.responseStatus = some StatusNotFound ↔
        (env.GetSnapshot (inf.Params.index "cdn")).2.2 = none ∧
          (env.GetSnapshot (inf.Params.index "cdn")).2.1 = false) ∧
      ((SnapshotGetHandler env r).run.responseStatus = some StatusOK ↔
        (env.GetSnapshot (inf.Params.index "cdn")).2.2 = none ∧
          (env.GetSnapshot (inf.Params.index "cdn")).2.1 = true) ∧
      (SnapshotGetHandler env r).run.written =
        (if (env.GetSnapshot (inf.Params.index "cdn")).2.2 = none ∧
            (env.GetSnapshot (inf.Params.index "cdn")).2.1 = true
          then [goBytes ("\x7b\"response\":" ++
            (env.GetSnapshot (inf.Params.index "cdn")).1 ++ "\x7d")]
          else [])) ∧
    (((SnapshotOldGetHandler env r).run.responseStatus = some StatusInternalServerError ↔
        (env.GetSnapshot (inf.Params.index "cdn")).2.2 ≠ none) ∧
      ((SnapshotOldGetHandler env r).run.responseStatus = some StatusNotFound ↔
        (env.GetSnapshot (inf.Params.index "cdn")).2.2 = none ∧
          (env.GetSnapshot (inf.Params.index "cdn")).2.1 = false) ∧
      ((SnapshotOldGetHandler env r).run.responseStatus = some StatusOK ↔
        (env.GetSnapshot (inf.Params.index "cdn")).2.2 = none ∧
          (env.GetSnapshot (inf.Params.index "cdn")).2.1 = true) ∧
      (SnapshotOldGetHandler env r).run.written =
        (if (env.GetSnapshot (inf.Params.index "cdn")).2.2 = none ∧
            (env.GetSnapshot (inf.Params.index "cdn")).2.1 = true
          then [goBytes (env.GetSnapshot (inf.Params.index "cdn")).1]
          else [])) := by
  rcases hgs : env.GetSnapshot (inf.Params.index "cdn") with ⟨snap, ex, _ | e⟩
  · cases ex
    · rw [SnapshotGetHandler_run_unknown env r inf code snap hni hgs,
        SnapshotOldGetHandler_run_unknown env r inf code snap hni hgs]
      simp [Outcome.responseStatus, Event.status?, Outcome.written, StatusNotFound,
        StatusInternalServerError, StatusOK]
    · rw [SnapshotGetHandler_run_ok env r inf code snap hni hgs,
        SnapshotOldGetHandler_run_ok env r inf code snap hni hgs]
      simp [Outcome.responseStatus, Event.status?, Outcome.written, StatusNotFound,
        StatusInternalServerError, StatusOK]
  · rw [SnapshotGetHandler_run_storeErr env r inf code snap ex e hni hgs,
      SnapshotOldGetHandler_run_storeErr env r inf code snap ex e hni hgs]
    simp [Outcome.responseStatus, Event.status?, Outcome.written, StatusNotFound,
      StatusInternalServerError, StatusOK]

/-- C6, instance: the sample request for `cdn7`, a CDN without a snapshot,
is answered 404 by both handlers and nothing is written. -/
theorem getHandlers_status_witness :
    ((SnapshotGetHandler sampleEnv (nameRequest "cdn7")).run.responseStatus = some 404 ∧
      (SnapshotGetHandler sampleEnv (nameRequest "cdn7")).run.written = []) ∧
    ((SnapshotOldGetHandler sampleEnv (nameRequest "cdn7")).run.responseStatus = some 404 ∧
      (SnapshotOldGetHandler sampleEnv (nameRequest "cdn7")).run.written = []) :=
  have h := getHandlers_status sampleEnv (nameRequest "cdn7")
    (sampleNewInfo (nameRequest "cdn7") ["cdn"] []).inf 0 rfl
  ⟨⟨h.1.2.1.2 (by decide), by decide⟩, ⟨h.2.2.1.2 (by decide), by decide⟩⟩

/-- The bytes of a concatenation are the bytes of its parts, in order. -/
theorem goBytes_append (a b : String) : goBytes (a ++ b) = goBytes a ++ goBytes b := by
  simp [goBytes, String.toUTF8]

/-- The bytes of the closing brace. -/
theorem goBytes_closingBrace : goBytes "\x7d" = [125] := by
  decide

/-- Taking the envelope off an enveloped document gives the document back. -/
theorem stripEnvelope_envelope (s : String) :
    stripEnvelope (goBytes ("\x7b\"response\":" ++ s ++ "\x7d")) = goBytes s := by
  rw [goBytes_append, goBytes_append, goBytes_closingBrace, stripEnvelope, List.append_assoc,
    List.drop_left, List.dropLast_concat]

/-- C7: for a stored snapshot `s` that `GetSnapshot` returns for an existing
CDN, `SnapshotOldGetHandler` writes exactly the bytes of `s`, and
`SnapshotGetHandler` writes exactly the bytes of `{"response":`, then the
bytes of `s`, then the byte of `}`; taking the envelope off the latter body
gives the former body. -/
theorem snapshot_passthrough (env : Collaborators) (r : Request) (inf : APIInfo) (code : Nat)
    (s : String)
    (hni : env.NewInfo r ["cdn"] [] = ⟨inf, none, none, code⟩)
    (hgs : env.GetSnapshot (inf.Params.index "cdn") = (s, true, none)) :
    (SnapshotOldGetHandler env r).run.written = [goBytes s] ∧
    (SnapshotGetHandler env r).run.written =
      [goBytes "\x7b\"response\":" ++ goBytes s ++ goBytes "\x7d"] ∧
    (SnapshotGetHandler env r).run.written.map stripEnvelope =
      (SnapshotOldGetHandler env r).run.written := by
  rw [SnapshotGetHandler_run_ok env r inf code s hni hgs,
    SnapshotOldGetHandler_run_ok env r inf code s hni hgs]
  refine ⟨by simp [Outcome.written], ?_, ?_⟩
  · simp [Outcome.written, goBytes_append]
  · simp [Outcome.written, stripEnvelope_envelope]

/-- C7, instance: the sample request for `cdn1`, whose stored snapshot is
`{"a":1}`. -/
theorem snapshot_passthrough_witness :
    (SnapshotOldGetHandler sampleEnv (nameRequest "cdn1")).run.written =
      [goBytes "\x7b\"a\":1\x7d"] ∧
    (SnapshotGetHandler sampleEnv (nameRequest "cdn1")).run.written =
      [goBytes "\x7b\"response\":" ++ goBytes "\x7b\"a\":1\x7d" ++ goBytes "\x7d"] ∧
    (SnapshotGetHandler sampleEnv (nameRequest "cdn1")).run.written.map stripEnvelope =
      (SnapshotOldGetHandler sampleEnv (nameRequest "cdn1")).run.written :=
  snapshot_passthrough sampleEnv (nameRequest "cdn1")
    (sampleNewInfo (nameRequest "cdn1") ["cdn"] []).inf 0 "\x7b\"a\":1\x7d" rfl (by decide)

/-- A run that does not call `Snapshot` leaves the store as it was. -/
theorem Store.after_of_no_snapshot (st : Store) (o : Outcome)
    (h : ∀ e ∈ o.events, ∀ crc, e ≠ .Snapshot crc) : st.after o = st := by
  have hfold : ∀ (evs : List Event) (st : Store),
      (∀ e ∈ evs, ∀ crc, e ≠ .Snapshot crc) → evs.foldl Store.apply st = st := by
    intro evs
    induction evs with
    | nil => intro st _; rfl
    | cons e es ih =>
      intro st hes
      have he : Store.apply st e = st := by
        cases e <;> first | rfl | exact absurd rfl (hes _ (List.mem_cons_self _ _) _)
      rw [List.foldl_cons, he]
      exact ih st (fun e1 h1 => hes e1 (List.mem_cons_of_mem _ h1))
  unfold Store.after
  split
  · exact hfold o.events st h
  · rfl

/-- The trace of a run of `Handler` holds no call of `Snapshot` and no call of
`api.CreateChangeLogRawTx`. -/
theorem Handler_run_no_write (env : Collaborators) (r : Request) :
    ∀ e ∈ (Handler env r).run.events,
      (∀ crc, e ≠ .Snapshot crc) ∧ (∀ level msg user, e ≠ .CreateChangeLogRawTx level msg user) := by
  rcases hni : env.NewInfo r ["cdn"] [] with ⟨inf, _ | ue, _ | se, code⟩
  · rcases hmk : env.Make (inf.Params.index "cdn") inf.User.UserName r.Host r.URLPath
      inf.ConfigVersion with ⟨crc, _ | e⟩
    · rw [Handler_run_ok env r inf code crc hni hmk]; simp
    · rw [Handler_run_makeErr env r inf code crc e hni hmk]; simp
  all_goals rw [Handler_run_infoErr env r (by simp [hni])]; simp

/-- C8: `Handler` never writes to the snapshot store.  Whatever the
collaborators return, a run of `Handler` calls neither `Snapshot` nor
`api.CreateChangeLogRawTx`; hence over an explicit store, after any number of
calls of `Handler` the store is the one before them, and `GetSnapshot` gives
for every CDN what it gave before. -/
theorem Handler_never_writes (envAt : Store → Collaborators) (rs : List Request)
    (st : Store) :
    (∀ env r, (Handler env r).run.snapshotCalls = [] ∧ (Handler env r).run.changeLogs = []) ∧
    previewCalls envAt rs st = st ∧
    ∀ cdn, (previewCalls envAt rs st).GetSnapshot cdn = st.GetSnapshot cdn := by
  have hstore : ∀ (rs : List Request) (st : Store), previewCalls envAt rs st = st := by
    intro rs
    induction rs with
    | nil => intro st; rfl
    | cons r rs ih =>
      intro st
      rw [previewCalls, Store.after_of_no_snapshot st _
        (fun e he => (Handler_run_no_write (envAt st) r e he).1)]
      exact ih st
  refine ⟨?_, hstore rs st, fun cdn => by rw [hstore rs st]⟩
  intro env r
  have h := Handler_run_no_write env r
  constructor
  · unfold Outcome.snapshotCalls
    rw [List.filterMap_eq_nil_iff]
    intro e he
    cases e <;> first | rfl | exact absurd rfl ((h _ he).1 _)
  · unfold Outcome.changeLogs
    rw [List.filterMap_eq_nil_iff]
    intro e he
    cases e <;> first | rfl | exact absurd rfl ((h _ he).2 _ _ _)

/-- C9: on a request that carries the CDN name `n`, `SnapshotOldGUIHandler`
makes the same build, persist and audit calls with the same arguments as
`SnapshotHandler`, and takes the same commit decision: `Make` on `n`, then
`Snapshot` on the built document, then the change-log message
`Snapshot of CRConfig performed for ` followed by `n`, then commit.  It
differs in the response: when `Make` or `Snapshot` fails with error `e`, a 302
redirect to `/tools/flash_and_close/` followed by the path-escaped text
`Error: ` and the message of `e`; on success a 302 redirect to
`/tools/flash_and_close/` followed by the path-escaped text
`Successfully wrote the CRConfig.json!`. -/
theorem SnapshotOldGUIHandler_same_sequence (env : Collaborators) (r : Request)
    (infG infS : APIInfo) (codeG codeS : Nat) (n : String)
    (hniG : env.NewInfo r ["cdn"] [] = ⟨infG, none, none, codeG⟩)
    (hniS : env.NewInfo r [] ["id"] = ⟨infS, none, none, codeS⟩)
    (hpG : infG.Params "cdn" = some n) (hpS : infS.Params "cdn" = some n)
    (hUser : infG.User = infS.User) (hVer : infG.ConfigVersion = infS.ConfigVersion) :
    (SnapshotOldGUIHandler env r).run.lifecycleCalls =
      (SnapshotHandler env r).run.lifecycleCalls ∧
    (SnapshotOldGUIHandler env r).run.commit = (SnapshotHandler env r).run.commit ∧
    (SnapshotOldGUIHandler env r).run.makeCalls = [n] ∧
    (SnapshotOldGUIHandler env r).run.panicked = false ∧
    (∀ e, (env.Make n infG.User.UserName r.Host r.URLPath infG.ConfigVersion).2 = some e →
      (SnapshotOldGUIHandler env r).run.redirects =
        [("/tools/flash_and_close/" ++ env.PathEscape ("Error: " ++ e), StatusFound)] ∧
      (SnapshotOldGUIHandler env r).run.responseStatus = some StatusFound) ∧
    ((env.Make n infG.User.UserName r.Host r.URLPath infG.ConfigVersion).2 = none →
      ∀ e, env.Snapshot
          (env.Make n infG.User.UserName r.Host r.URLPath infG.ConfigVersion).1 = some e →
        (SnapshotOldGUIHandler env r).run.redirects =
          [("/tools/flash_and_close/" ++ env.PathEscape ("Error: " ++ e), StatusFound)] ∧
        (SnapshotOldGUIHandler env r).run.responseStatus = some StatusFound) ∧
    ((env.Make n infG.User.UserName r.Host r.URLPath infG.ConfigVersion).2 = none →
      env.Snapshot (env.Make n infG.User.UserName r.Host r.URLPath infG.ConfigVersion).1 = none →
        (SnapshotOldGUIHandler env r).run.lifecycleCalls =
          [.Make n infG.User.UserName r.Host r.URLPath infG.ConfigVersion,
           .Snapshot (env.Make n infG.User.UserName r.Host r.URLPath infG.ConfigVersion).1,
           .CreateChangeLogRawTx env.ApiChange ("Snapshot of CRConfig performed for " ++ n)
             infG.User] ∧
        (SnapshotOldGUIHandler env r).run.commit = true ∧
        (SnapshotOldGUIHandler env r).run.redirects =
          [("/tools/flash_and_close/" ++
            env.PathEscape "Successfully wrote the CRConfig.json!", StatusFound)] ∧
        (SnapshotOldGUIHandler env r).run.responseStatus = some StatusFound) := by
  have hidx : infG.Params.index "cdn" = n := by simp [GoMap.index, hpG]
  have hresS : ∀ s, resolveCDN env infS s =
      (some (some n), { events := s.events ++ [], commit := s.commit }) :=
    fun s => by simp [resolveCDN_byName env infS n s hpS]
  rcases hmk : env.Make n infG.User.UserName r.Host r.URLPath infG.ConfigVersion
    with ⟨crc, _ | e⟩
  · have hmkG : env.Make (infG.Params.index "cdn") infG.User.UserName r.Host r.URLPath
        infG.ConfigVersion = (crc, none) := by rw [hidx]; exact hmk
    have hmkS : env.Make n infS.User.UserName r.Host r.URLPath infS.ConfigVersion
        = (crc, none) := by rw [← hUser, ← hVer]; exact hmk
    rcases hsn : env.Snapshot crc with _ | e
    · rw [SnapshotOldGUIHandler_run_ok env r infG codeG crc hniG hmkG hsn,
        SnapshotHandler_run_ok env r infS codeS n _ crc hniS hresS hmkS hsn]
      simp [Outcome.lifecycleCalls, Outcome.makeCalls, Outcome.redirects,
        Outcome.responseStatus, Event.status?, hidx, hUser, hVer]
    · rw [SnapshotOldGUIHandler_run_snapshotErr env r infG codeG crc e hniG hmkG hsn,
        SnapshotHandler_run_snapshotErr env r infS codeS n _ crc e hniS hresS hmkS hsn]
      simp [Outcome.lifecycleCalls, Outcome.makeCalls, Outcome.redirects,
        Outcome.responseStatus, Event.status?, hidx, hUser, hVer]
  · have hmkG : env.Make (infG.Params.index "cdn") infG.User.UserName r.Host r.URLPath
        infG.ConfigVersion = (crc, some e) := by rw [hidx]; exact hmk
    have hmkS : env.Make n infS.User.UserName r.Host r.URLPath infS.ConfigVersion
        = (crc, some e) := by rw [← hUser, ← hVer]; exact hmk
    rw [SnapshotOldGUIHandler_run_makeErr env r infG codeG crc e hniG hmkG,
      SnapshotHandler_run_makeErr env r infS codeS n _ crc e hniS hresS hmkS]
    simp [Outcome.lifecycleCalls, Outcome.makeCalls, Outcome.redirects,
      Outcome.responseStatus, Event.status?, hidx, hUser, hVer]

/-- C9, instance: the sample request for `cdn1` when `Make` fails; the redirect
carries the message of the error of `Make`. -/
theorem SnapshotOldGUIHandler_same_sequence_witness :
    (SnapshotOldGUIHandler makeFailEnv (nameRequest "cdn1")).run.lifecycleCalls =
      (SnapshotHandler makeFailEnv (nameRequest "cdn1")).run.lifecycleCalls ∧
    (SnapshotOldGUIHandler makeFailEnv (nameRequest "cdn1")).run.commit =
      (SnapshotHandler makeFailEnv (nameRequest "cdn1")).run.commit ∧
    (SnapshotOldGUIHandler makeFailEnv (nameRequest "cdn1")).run.redirects =
      [("/tools/flash_and_close/Error: no such CDN", 302)] :=
  have h := SnapshotOldGUIHandler_same_sequence makeFailEnv (nameRequest "cdn1")
    (sampleNewInfo (nameRequest "cdn1") ["cdn"] []).inf
    (sampleNewInfo (nameRequest "cdn1") [] ["id"]).inf 0 0 "cdn1" rfl rfl
    (by decide) (by decide) rfl rfl
  ⟨h.1, h.2.1, (h.2.2.2.2.1 "no such CDN" (by decide)).1⟩

/-- C10 fails on the code: when `api.NewInfo` returns a user error and a nil
system error (here: the required parameter `cdn` is missing), the handler
panics in `sysErr.Error()` before anything is logged or written, and no
redirect is sent; when it returns a system error and a nil user error, the
handler logs the system error and then panics in `writePerlHTMLErr`, again
with no redirect. -/
theorem SnapshotOldGUIHandler_panics_on_nil_error :
    (sampleEnv.NewInfo bareRequest ["cdn"] []).userErr = some "required parameters missing" ∧
    (sampleEnv.NewInfo bareRequest ["cdn"] []).sysErr = none ∧
    (SnapshotOldGUIHandler sampleEnv bareRequest).run =
      { events := [.NewInfo ["cdn"] []], commit := false, panicked := true } ∧
    (SnapshotOldGUIHandler sampleEnv bareRequest).run.redirects = [] ∧
    (sysErrEnv.NewInfo bareRequest ["cdn"] []).userErr = none ∧
    (sysErrEnv.NewInfo bareRequest ["cdn"] []).sysErr = some "getting db" ∧
    (SnapshotOldGUIHandler sysErrEnv bareRequest).run =
      { events := [.NewInfo ["cdn"] [],
          .Errorln "192.0.2.1:4000 unable to get info from request: getting db",
          .writePerlHTMLErr none],
        commit := false, panicked := true } ∧
    (SnapshotOldGUIHandler sysErrEnv bareRequest).run.redirects = [] := by
  decide

end crconfig
